import Mathlib

/-!
Verification of the InfraGenius tool layer (src/tools/infra.py and
src/tools/messaging.py) against its natural-language specification.

Modelling conventions (shallow embedding):

* Every external interaction (the E2B SDK and the HTTP client) is modelled
  as an oracle value supplied to the operation: each remote call either
  raises (an `Except.error` carrying the Python text of the exception,
  `str(e)`) or returns a result structure.  The placement of these oracle
  consultations in the Lean definitions mirrors the placement of the
  corresponding calls inside or outside the source's try/except blocks.
* The process-wide registry `_sandboxes` (a Python dict) is passed
  explicitly: every operation takes the registry and returns the registry
  it leaves behind, so frame properties are statable.  Python dict update
  semantics (replacing a value in place keeps the key's insertion
  position; a fresh key is appended at the end) are captured by `dictSet`
  on an association list, and subscript lookup by `dictGet`.
* Operations that issue remote commands additionally return the trace of
  commands actually issued, so that claims of the form "step X is never
  invoked" are statable.
* Wall-clock readings (`time.time()`) and measured latencies are supplied
  by the oracle as natural numbers (milliseconds for latencies); Python's
  float formatting of latencies is abstracted to the decimal rendering of
  those naturals.  No claim depends on float rounding.
-/

namespace InfraGenius

/-- Result of a remote shell command, as produced by
`sandbox.commands.run` in the E2B SDK: captured stdout, stderr and the
numeric exit code. -/
structure CommandResult where
  stdout : String
  stderr : String
  exit_code : Int
deriving DecidableEq

/-- Handle to a live remote sandbox as returned by `Sandbox.create`:
the opaque session (modelled by an identity token) together with the
`sandbox_id` string assigned by the provisioning call. -/
structure E2BSandbox where
  token : Nat
  sandbox_id : String
deriving DecidableEq

/-- Registry record stored by `provision_sandbox` under the chosen name:
mirrors the dict literal at infra.py lines 52-57. -/
structure SandboxRecord where
  sandbox : Nat
  sandbox_id : String
  base_url : String
  created_at : Nat
deriving DecidableEq

/-- The process-wide `_sandboxes` dict, as an insertion-ordered
association list with unique keys. -/
abbrev Registry := List (String × SandboxRecord)

/-- Keys of the registry in insertion order. -/
def registryKeys (reg : Registry) : List String :=
  reg.map Prod.fst

/-- Python dict subscript `d[k]` and membership test: the record stored
under the first (and, keys being unique, only) occurrence of the key. -/
def dictGet (reg : Registry) (k : String) : Option SandboxRecord :=
  match reg with
  | [] => none
  | p :: ps => if p.1 = k then some p.2 else dictGet ps k

/-- Python dict assignment `d[k] = v`: if the key is present its value is
replaced in place (the key keeps its insertion position), otherwise the
pair is appended at the end. -/
def dictSet (reg : Registry) (k : String) (v : SandboxRecord) : Registry :=
  if k ∈ registryKeys reg then
    reg.map (fun p => if p.1 = k then (k, v) else p)
  else
    reg ++ [(k, v)]

/-- Environment consulted by `provision_sandbox`: the value of the
E2B_API_KEY environment variable (`none` when unset), the outcome of the
`Sandbox.create(timeout=600)` call, and the current `time.time()`
reading. -/
structure ProvisionEnv where
  api_key : Option String
  create_result : Except String E2BSandbox
  now : Nat

/-- Python truthiness test `if not api_key`: true when the variable is
unset or holds the empty string. -/
def keyMissing : Option String → Bool
  | none => true
  | some k => decide (k = "")

/-- Embedding of `provision_sandbox` (infra.py lines 27-62).  Returns the
result string, the registry left behind, and the trace of remote SDK
calls issued (the single entry marks the `Sandbox.create` call). -/
def provision_sandbox (env : ProvisionEnv) (name : String) (reg : Registry) :
    String × Registry × List String :=
  if keyMissing env.api_key then
    ("❌ E2B_API_KEY not set. Please configure your API key.", reg, [])
  else
    match env.create_result with
    | .error e => ("❌ Failed to provision sandbox: " ++ e, reg, ["Sandbox.create"])
    | .ok sb =>
      let sandbox_id := sb.sandbox_id
      let base_url := "https://8000-" ++ sandbox_id ++ ".e2b.app"
      let entry : SandboxRecord :=
        { sandbox := sb.token
          sandbox_id := sandbox_id
          base_url := base_url
          created_at := env.now }
      ("✅ Sandbox provisioned!\n📦 Name: " ++ (name ++ ("\n🆔 ID: " ++ (sandbox_id ++ ("\n🔗 URL: " ++ base_url)))),
       dictSet reg name entry, ["Sandbox.create"])

/-- One rendered entry of the `list_sandboxes` enumeration
(infra.py lines 78-80). -/
def sandboxEntry (name : String) (info : SandboxRecord) : String :=
  "• **" ++ (name ++ ("**\n" ++ ("  ID: " ++ (info.sandbox_id ++ ("\n" ++ ("  URL: " ++ (info.base_url ++ "\n\n")))))))

/-- Embedding of `list_sandboxes` (infra.py lines 66-82): the source
accumulates the enumeration with `output +=` over the dict items in
insertion order. -/
def list_sandboxes (reg : Registry) : String × Registry :=
  if reg.isEmpty then
    ("📭 No active sandboxes. Use provision_sandbox() to create one.", reg)
  else
    (reg.foldl (fun out p => out ++ sandboxEntry p.1 p.2) "📦 **Active Sandboxes:**\n\n", reg)

/-- Embedding of `run_command` (infra.py lines 86-116).  The oracle is
the outcome of the single `sandbox.commands.run(command)` call; the third
component is the trace of commands issued to the remote sandbox. -/
def run_command (env : Except String CommandResult) (reg : Registry)
    (sandbox_name command : String) : String × Registry × List String :=
  match dictGet reg sandbox_name with
  | none => ("❌ Sandbox \x27" ++ sandbox_name ++ "\x27 not found.", reg, [])
  | some _info =>
    match env with
    | .error e => ("❌ Command failed: " ++ e, reg, [command])
    | .ok r =>
      let output := ""
      let output := if r.stdout ≠ "" then output ++ ("📤 stdout:\n" ++ (r.stdout ++ "\n")) else output
      let output := if r.stderr ≠ "" then output ++ ("📤 stderr:\n" ++ (r.stderr ++ "\n")) else output
      let output := output ++ ("🔢 Exit code: " ++ toString r.exit_code)
      ((if r.exit_code = 0 then "✅" else "⚠️") ++ (" " ++ output), reg, [command])

/-- The five call sites of `sandbox.commands.run` inside the
`deploy_app` pipeline, in source order. -/
inductive Step
  | clone
  | install
  | build
  | serve
  | probe
deriving DecidableEq

/-- Environment consulted by `deploy_app`: the outcome of each of the
five `sandbox.commands.run` call sites, in source order.  A slot is only
consumed when control reaches that call. -/
structure DeployEnv where
  clone_result : Except String CommandResult
  install_result : Except String CommandResult
  build_result : Except String CommandResult
  serve_result : Except String CommandResult
  probe_result : Except String CommandResult

/-- Pipeline body of `deploy_app` after the registry lookup
(infra.py lines 137-176): returns the result string and the trace of
remote commands issued, each tagged with its call site and paired with
the oracle response it received. -/
def deployPipeline (env : DeployEnv) (base_url : String) :
    String × List (Step × Except String CommandResult) :=
  match env.clone_result with
  | .error e => ("❌ Deployment failed: " ++ e, [(Step.clone, .error e)])
  | .ok r1 =>
    if r1.exit_code ≠ 0 then
      ("❌ Clone failed: " ++ r1.stderr, [(Step.clone, .ok r1)])
    else
      match env.install_result with
      | .error e => ("❌ Deployment failed: " ++ e, [(Step.clone, .ok r1), (Step.install, .error e)])
      | .ok r2 =>
        if r2.exit_code ≠ 0 then
          ("❌ Install failed: " ++ r2.stderr, [(Step.clone, .ok r1), (Step.install, .ok r2)])
        else
          match env.build_result with
          | .error e =>
            ("❌ Deployment failed: " ++ e,
             [(Step.clone, .ok r1), (Step.install, .ok r2), (Step.build, .error e)])
          | .ok r3 =>
            if r3.exit_code ≠ 0 then
              ("❌ Build failed: " ++ r3.stderr,
               [(Step.clone, .ok r1), (Step.install, .ok r2), (Step.build, .ok r3)])
            else
              match env.serve_result with
              | .error e =>
                ("❌ Deployment failed: " ++ e,
                 [(Step.clone, .ok r1), (Step.install, .ok r2), (Step.build, .ok r3),
                  (Step.serve, .error e)])
              | .ok r4 =>
                match env.probe_result with
                | .error e =>
                  ("❌ Deployment failed: " ++ e,
                   [(Step.clone, .ok r1), (Step.install, .ok r2), (Step.build, .ok r3),
                    (Step.serve, .ok r4), (Step.probe, .error e)])
                | .ok r5 =>
                  if r5.exit_code ≠ 0 then
                    ("❌ Server failed to start",
                     [(Step.clone, .ok r1), (Step.install, .ok r2), (Step.build, .ok r3),
                      (Step.serve, .ok r4), (Step.probe, .ok r5)])
                  else
                    let steps := ["✅ Cloned", "✅ Installed", "✅ Built", "✅ Server running"]
                    ("🎉 **Deployment Complete!**\n\n" ++ String.intercalate "\n" steps ++ "\n\n🔗 **Live URL:** " ++ base_url,
                     [(Step.clone, .ok r1), (Step.install, .ok r2), (Step.build, .ok r3),
                      (Step.serve, .ok r4), (Step.probe, .ok r5)])

/-- Embedding of `deploy_app` (infra.py lines 120-176): registry lookup
followed by the four-step pipeline against the found record. -/
def deploy_app (env : DeployEnv) (reg : Registry) (sandbox_name repo_url : String) :
    String × Registry × List (Step × Except String CommandResult) :=
  match dictGet reg sandbox_name with
  | none => ("❌ Sandbox \x27" ++ sandbox_name ++ "\x27 not found. Provision one first.", reg, [])
  | some info =>
    let result := deployPipeline env info.base_url
    (result.1, reg, result.2)

/-- Shell command issued by each pipeline call site (the clone command
interpolates the repository URL). -/
def stepCommand (repo_url : String) : Step → String
  | Step.clone => "git clone " ++ repo_url ++ " /home/user/app"
  | Step.install => "cd /home/user/app && npm install"
  | Step.build => "cd /home/user/app && npm run build"
  | Step.serve => "cd /home/user/app/dist && nohup python3 -m http.server 8000 > /tmp/server.log 2>&1 &"
  | Step.probe => "ps aux | grep \x27http.server\x27 | grep -v grep"

/-- HTTP response as consumed by `verify_url`: only the status code is
inspected. -/
structure HttpResponse where
  status_code : Int
deriving DecidableEq

/-- Environment consulted by `verify_url`: the outcome of the single
`requests.get(url, timeout=10, allow_redirects=True)` call and the
elapsed wall-clock milliseconds measured around it. -/
structure VerifyEnv where
  get_result : Except String HttpResponse
  elapsed_ms : Nat

/-- Embedding of `verify_url` (infra.py lines 180-204). -/
def verify_url (env : VerifyEnv) (reg : Registry) (url : String) : String × Registry :=
  match env.get_result with
  | .error e => ("❌ Failed: " ++ e, reg)
  | .ok resp =>
    if resp.status_code = 200 then
      ("✅ URL is LIVE!\n🔗 " ++ (url ++ ("\n📊 HTTP " ++ (toString resp.status_code ++ ("\n⏱️ " ++ (toString env.elapsed_ms ++ "ms"))))), reg)
    else
      ("⚠️ HTTP " ++ (toString resp.status_code ++ ("\n🔗 " ++ (url ++ ("\n⏱️ " ++ (toString env.elapsed_ms ++ "ms"))))), reg)

/-- Environment consulted by `check_latency`: for each loop iteration
`i`, the i-th `requests.get(url, timeout=10)` either raises or completes
with the measured elapsed milliseconds. -/
structure LatencyEnv where
  gets : Nat → Except String Nat

/-- The `for i in range(samples)` loop of `check_latency`: collects the
measured elapsed time of each sequential GET, aborting the batch at the
first call that raises. -/
def collectTimes (env : LatencyEnv) (i : Nat) : Nat → Except String (List Nat)
  | 0 => .ok []
  | n + 1 =>
    match env.gets i with
    | .error e => .error e
    | .ok t =>
      match collectTimes env (i + 1) n with
      | .error e => .error e
      | .ok ts => .ok (t :: ts)

/-- Minimum of a list of naturals (Python `min(times)`, only applied to a
non-empty list). -/
def listMin : List Nat → Nat
  | [] => 0
  | x :: xs => xs.foldl Nat.min x

/-- Maximum of a list of naturals (Python `max(times)`, only applied to a
non-empty list). -/
def listMax : List Nat → Nat
  | [] => 0
  | x :: xs => xs.foldl Nat.max x

/-- Body of the try block of `check_latency` (infra.py lines 221-230).
Python evaluates `sum(times) / len(times)`, which raises
ZeroDivisionError (text "division by zero") when `times` is empty; that
exception is modelled as the corresponding error value.  The float
average is abstracted to natural division on milliseconds. -/
def latencyBody (env : LatencyEnv) (samples : Int) : Except String String :=
  match collectTimes env 0 samples.toNat with
  | .error e => .error e
  | .ok times =>
    if times.length = 0 then
      .error "division by zero"
    else
      .ok ("📊 Latency: " ++ (toString (times.sum / times.length) ++ ("ms avg (" ++ (toString (listMin times) ++ ("-" ++ (toString (listMax times) ++ "ms)"))))))

/-- Embedding of `check_latency` (infra.py lines 208-233): the try body
runs to completion or its exception is rendered by the except clause.
Note that `range(samples)` is empty for any non-positive `samples`
(hence `Int.toNat`). -/
def check_latency (env : LatencyEnv) (reg : Registry) (url : String) (samples : Int) :
    String × Registry :=
  match latencyBody env samples with
  | .ok s => (s, reg)
  | .error e => ("❌ Failed: " ++ e, reg)

/-- Embedding of `send_message` (messaging.py lines 15-27): a pure
formatting placeholder that transmits nothing and ignores the messaging
context. -/
def send_message (reg : Registry) (text : String) : String × Registry :=
  ("Message sent: " ++ text, reg)

/-- The process-wide messaging context of messaging.py: both fields are
unset until `set_agent_context` stores them. -/
structure MessagingContext where
  agent_client : Option Nat
  source_id : Option String

/-- Embedding of `set_agent_context` (messaging.py lines 9-13):
unconditionally replaces both fields, last call wins. -/
def set_agent_context (_ctx : MessagingContext) (client : Nat) (src : String) :
    MessagingContext :=
  { agent_client := some client, source_id := some src }

/-- Claim-side rendering of a command report as the specification
describes it: a marker keyed on exit-code-equals-zero, the stdout block
exactly when stdout is non-empty, the stderr block exactly when stderr is
non-empty, and always the numeric exit code. -/
def reportSpec (r : CommandResult) : String :=
  (if r.exit_code = 0 then "✅" else "⚠️") ++ " " ++
  (if r.stdout ≠ "" then "📤 stdout:\n" ++ (r.stdout ++ "\n") else "") ++
  (if r.stderr ≠ "" then "📤 stderr:\n" ++ (r.stderr ++ "\n") else "") ++
  ("🔢 Exit code: " ++ toString r.exit_code)

/-- Claim-side success message of `deploy_app`: the fixed completed-steps
summary followed by the sandbox's base URL. -/
def deploySuccessMsg (base_url : String) : String :=
  "🎉 **Deployment Complete!**\n\n✅ Cloned\n✅ Installed\n✅ Built\n✅ Server running\n\n🔗 **Live URL:** " ++ base_url

/-- Claim-side live message of `verify_url` for status 200 and a given
measured latency. -/
def liveMsg (url : String) (ms : Nat) : String :=
  "✅ URL is LIVE!\n🔗 " ++ (url ++ ("\n📊 HTTP 200\n⏱️ " ++ (toString ms ++ "ms")))

/-- Claim-side enumeration of registry records in insertion order, as
`list_sandboxes` renders them. -/
def renderEntries : Registry → String
  | [] => ""
  | p :: rest => sandboxEntry p.1 p.2 ++ renderEntries rest

/-- Successful-environment predicate for `provision_sandbox`: the API
key is configured (set and non-empty) and the remote creation call
returns a handle. -/
def envOk (env : ProvisionEnv) : Prop :=
  (∃ k, env.api_key = some k ∧ k ≠ "") ∧ ∃ sb, env.create_result = Except.ok sb

/-- Iterated provisioning: folds `provision_sandbox` over a list of
jobs, each a name together with the oracle environment of its call. -/
def provisionAll (reg : Registry) (jobs : List (String × ProvisionEnv)) : Registry :=
  jobs.foldl (fun r j => (provision_sandbox j.2 j.1 r).2.1) reg

/-! Helper lemmas about strings: two strings whose first characters
differ are distinct, which separates the disjoint message families of the
source (success, warning and failure strings each start with a distinct
marker character). -/

/-- First character of a string, if any. -/
def firstChar (s : String) : Option Char :=
  s.data.head?

theorem firstChar_append (a b : String) (h : a.data ≠ []) :
    firstChar (a ++ b) = firstChar a := by
  unfold firstChar
  rw [String.data_append]
  cases hd : a.data with
  | nil => exact absurd hd h
  | cons c cs => rfl

theorem ne_of_firstChar {a b : String} (h : firstChar a ≠ firstChar b) : a ≠ b :=
  fun e => h (by rw [e])

theorem append_ne_append_head (a b x y : String) (h1 : a.data ≠ []) (h2 : b.data ≠ [])
    (h : firstChar a ≠ firstChar b) : a ++ x ≠ b ++ y := by
  apply ne_of_firstChar
  rw [firstChar_append a x h1, firstChar_append b y h2]
  exact h

theorem lit_ne_append_head (a b y : String) (h2 : b.data ≠ [])
    (h : firstChar a ≠ firstChar b) : a ≠ b ++ y := by
  apply ne_of_firstChar
  rw [firstChar_append b y h2]
  exact h

/-! Helper lemmas about the registry dictionary. -/

theorem dictGet_map_replace (reg : Registry) (k : String) (v : SandboxRecord)
    (hmem : k ∈ registryKeys reg) :
    dictGet (reg.map fun p => if p.1 = k then (k, v) else p) k = some v := by
  induction reg with
  | nil => simp [registryKeys] at hmem
  | cons p ps ih =>
    by_cases hp : p.1 = k
    · simp [dictGet, hp]
    · have hmem2 : k ∈ registryKeys ps := by
        simp only [registryKeys, List.map_cons, List.mem_cons] at hmem
        rcases hmem with h1 | h1
        · exact absurd h1.symm hp
        · exact h1
      simp only [List.map_cons, if_neg hp, dictGet]
      exact ih hmem2

theorem dictGet_append_of_not_mem (reg l : Registry) (k : String)
    (h : k ∉ registryKeys reg) :
    dictGet (reg ++ l) k = dictGet l k := by
  induction reg with
  | nil => rfl
  | cons p ps ih =>
    have hp : p.1 ≠ k := fun e => h (e ▸ List.mem_cons_self p.1 (registryKeys ps))
    have h2 : k ∉ registryKeys ps :=
      fun hm => h (List.mem_cons_of_mem p.1 hm)
    simp only [List.cons_append, dictGet, if_neg hp]
    exact ih h2

theorem dictGet_dictSet (reg : Registry) (k : String) (v : SandboxRecord) :
    dictGet (dictSet reg k v) k = some v := by
  unfold dictSet
  by_cases hmem : k ∈ registryKeys reg
  · rw [if_pos hmem]
    exact dictGet_map_replace reg k v hmem
  · rw [if_neg hmem, dictGet_append_of_not_mem reg _ k hmem]
    simp [dictGet]

theorem keys_map_replace (reg : Registry) (k : String) (v : SandboxRecord) :
    registryKeys (reg.map fun p => if p.1 = k then (k, v) else p) = registryKeys reg := by
  induction reg with
  | nil => rfl
  | cons p ps ih =>
    simp only [registryKeys, List.map_cons] at ih ⊢
    refine congrArg₂ List.cons ?_ ih
    by_cases hp : p.1 = k <;> simp [hp]

theorem registryKeys_dictSet (reg : Registry) (k : String) (v : SandboxRecord) :
    registryKeys (dictSet reg k v) =
      if k ∈ registryKeys reg then registryKeys reg else registryKeys reg ++ [k] := by
  unfold dictSet
  by_cases hmem : k ∈ registryKeys reg
  · rw [if_pos hmem, if_pos hmem]
    exact keys_map_replace reg k v
  · rw [if_neg hmem, if_neg hmem]
    simp [registryKeys]

theorem nodup_keys_dictSet (reg : Registry) (k : String) (v : SandboxRecord)
    (h : (registryKeys reg).Nodup) : (registryKeys (dictSet reg k v)).Nodup := by
  rw [registryKeys_dictSet]
  by_cases hmem : k ∈ registryKeys reg
  · rw [if_pos hmem]
    exact h
  · rw [if_neg hmem, List.nodup_append]
    refine ⟨h, List.nodup_singleton k, ?_⟩
    intro a ha hb
    rw [List.mem_singleton] at hb
    exact hmem (hb ▸ ha)

theorem filter_map_replace_nil (ps : Registry) (k : String) (v : SandboxRecord)
    (h : k ∉ registryKeys ps) :
    (ps.map fun p => if p.1 = k then (k, v) else p).filter (fun p => decide (p.1 = k)) = [] := by
  induction ps with
  | nil => rfl
  | cons q qs ih =>
    have hq : q.1 ≠ k := fun e => h (e ▸ List.mem_cons_self q.1 (registryKeys qs))
    have h2 : k ∉ registryKeys qs := fun hm => h (List.mem_cons_of_mem q.1 hm)
    simp only [List.map_cons, if_neg hq, List.filter_cons, decide_eq_true_eq, hq, if_false]
    exact ih h2

theorem filter_map_replace_eq (reg : Registry) (k : String) (v : SandboxRecord)
    (hnd : (registryKeys reg).Nodup) (hmem : k ∈ registryKeys reg) :
    (reg.map fun p => if p.1 = k then (k, v) else p).filter (fun p => decide (p.1 = k)) = [(k, v)] := by
  induction reg with
  | nil => simp [registryKeys] at hmem
  | cons p ps ih =>
    have hnd2 : (registryKeys ps).Nodup ∧ p.1 ∉ registryKeys ps :=
      ⟨(List.nodup_cons.mp hnd).2, (List.nodup_cons.mp hnd).1⟩
    by_cases hp : p.1 = k
    · have hknotin : k ∉ registryKeys ps := hp ▸ hnd2.2
      simp only [List.map_cons, if_pos hp, List.filter_cons, decide_eq_true_eq, if_pos rfl]
      rw [filter_map_replace_nil ps k v hknotin]
      simp
    · have hmem2 : k ∈ registryKeys ps := by
        simp only [registryKeys, List.map_cons, List.mem_cons] at hmem
        rcases hmem with h1 | h1
        · exact absurd h1.symm hp
        · exact h1
      simp only [List.map_cons, if_neg hp, List.filter_cons, decide_eq_true_eq, hp, if_false]
      exact ih hnd2.1 hmem2

theorem filter_dictSet_self (reg : Registry) (k : String) (v : SandboxRecord)
    (h : (registryKeys reg).Nodup) :
    (dictSet reg k v).filter (fun p => decide (p.1 = k)) = [(k, v)] := by
  unfold dictSet
  by_cases hmem : k ∈ registryKeys reg
  · rw [if_pos hmem]
    exact filter_map_replace_eq reg k v h hmem
  · rw [if_neg hmem, List.filter_append]
    have hnil : reg.filter (fun p => decide (p.1 = k)) = [] := by
      refine List.filter_eq_nil_iff.mpr fun p hp => ?_
      simp only [decide_eq_true_eq]
      exact fun e => hmem (e ▸ List.mem_map_of_mem Prod.fst hp)
    simp [hnil]

/-! Helper lemmas about the operations. -/

theorem provision_ok (env : ProvisionEnv) (name : String) (reg : Registry)
    (k : String) (sb : E2BSandbox)
    (h1 : env.api_key = some k) (hk : k ≠ "") (h2 : env.create_result = Except.ok sb) :
    provision_sandbox env name reg =
      ("✅ Sandbox provisioned!\n📦 Name: " ++ (name ++ ("\n🆔 ID: " ++ (sb.sandbox_id ++ ("\n🔗 URL: " ++ ("https://8000-" ++ sb.sandbox_id ++ ".e2b.app"))))),
       dictSet reg name
         { sandbox := sb.token
           sandbox_id := sb.sandbox_id
           base_url := "https://8000-" ++ sb.sandbox_id ++ ".e2b.app"
           created_at := env.now },
       ["Sandbox.create"]) := by
  unfold provision_sandbox
  rw [h1, h2]
  simp [keyMissing, hk]

theorem foldl_entry (reg : Registry) (a : String) :
    reg.foldl (fun out p => out ++ sandboxEntry p.1 p.2) a = a ++ renderEntries reg := by
  induction reg generalizing a with
  | nil => simp [renderEntries]
  | cons p ps ih =>
    simp only [List.foldl_cons, renderEntries]
    rw [ih, String.append_assoc]

theorem provisionAll_keys (jobs : List (String × ProvisionEnv)) (reg : Registry)
    (hok : ∀ j ∈ jobs, envOk j.2)
    (hnd : (jobs.map Prod.fst).Nodup)
    (hdisj : ∀ j ∈ jobs, j.1 ∉ registryKeys reg) :
    registryKeys (provisionAll reg jobs) = registryKeys reg ++ jobs.map Prod.fst := by
  induction jobs generalizing reg with
  | nil => simp [provisionAll]
  | cons j rest ih =>
    obtain ⟨⟨k, hk1, hk2⟩, sb, hsb⟩ := hok j (List.mem_cons_self j rest)
    have hstep : (provision_sandbox j.2 j.1 reg).2.1 =
        dictSet reg j.1
          { sandbox := sb.token
            sandbox_id := sb.sandbox_id
            base_url := "https://8000-" ++ sb.sandbox_id ++ ".e2b.app"
            created_at := j.2.now } := by
      rw [provision_ok j.2 j.1 reg k sb hk1 hk2 hsb]
    have hmem : j.1 ∉ registryKeys reg := hdisj j (List.mem_cons_self j rest)
    have hkeys : registryKeys ((provision_sandbox j.2 j.1 reg).2.1) =
        registryKeys reg ++ [j.1] := by
      rw [hstep, registryKeys_dictSet, if_neg hmem]
    have hnotin : ∀ x ∈ rest, x.1 ≠ j.1 := by
      intro x hx e
      have : j.1 ∈ rest.map Prod.fst := e ▸ List.mem_map_of_mem Prod.fst hx
      exact (List.nodup_cons.mp (by simpa using hnd)).1 this
    have hrec := ih ((provision_sandbox j.2 j.1 reg).2.1)
      (fun x hx => hok x (List.mem_cons_of_mem j hx))
      (List.nodup_cons.mp (by simpa using hnd)).2
      (fun x hx => by
        rw [hkeys]
        intro hmem2
        rcases List.mem_append.mp hmem2 with h1 | h1
        · exact hdisj x (List.mem_cons_of_mem j hx) h1
        · exact hnotin x hx (List.mem_singleton.mp h1))
    calc registryKeys (provisionAll reg (j :: rest))
        = registryKeys (provisionAll ((provision_sandbox j.2 j.1 reg).2.1) rest) := rfl
      _ = (registryKeys reg ++ [j.1]) ++ rest.map Prod.fst := by rw [hrec, hkeys]
      _ = registryKeys reg ++ (j :: rest).map Prod.fst := by simp

/-! Evaluation lemmas for the deployment pipeline: one per control path
of infra.py lines 137-176. -/

theorem dp_clone_raise (e : String) (i b s p : Except String CommandResult) (u : String) :
    deployPipeline ⟨.error e, i, b, s, p⟩ u =
      ("❌ Deployment failed: " ++ e, [(Step.clone, .error e)]) := rfl

theorem dp_clone_fail (r1 : CommandResult) (i b s p : Except String CommandResult) (u : String)
    (h : r1.exit_code ≠ 0) :
    deployPipeline ⟨.ok r1, i, b, s, p⟩ u =
      ("❌ Clone failed: " ++ r1.stderr, [(Step.clone, .ok r1)]) := by
  simp only [deployPipeline]
  rw [if_pos h]

theorem dp_install_raise (r1 : CommandResult) (e : String) (b s p : Except String CommandResult)
    (u : String) (h : r1.exit_code = 0) :
    deployPipeline ⟨.ok r1, .error e, b, s, p⟩ u =
      ("❌ Deployment failed: " ++ e, [(Step.clone, .ok r1), (Step.install, .error e)]) := by
  simp only [deployPipeline]
  rw [if_neg (not_not_intro h)]

theorem dp_install_fail (r1 r2 : CommandResult) (b s p : Except String CommandResult)
    (u : String) (h1 : r1.exit_code = 0) (h2 : r2.exit_code ≠ 0) :
    deployPipeline ⟨.ok r1, .ok r2, b, s, p⟩ u =
      ("❌ Install failed: " ++ r2.stderr,
       [(Step.clone, .ok r1), (Step.install, .ok r2)]) := by
  simp only [deployPipeline]
  rw [if_neg (not_not_intro h1), if_pos h2]

theorem dp_build_raise (r1 r2 : CommandResult) (e : String) (s p : Except String CommandResult)
    (u : String) (h1 : r1.exit_code = 0) (h2 : r2.exit_code = 0) :
    deployPipeline ⟨.ok r1, .ok r2, .error e, s, p⟩ u =
      ("❌ Deployment failed: " ++ e,
       [(Step.clone, .ok r1), (Step.install, .ok r2), (Step.build, .error e)]) := by
  simp only [deployPipeline]
  rw [if_neg (not_not_intro h1), if_neg (not_not_intro h2)]

theorem dp_build_fail (r1 r2 r3 : CommandResult) (s p : Except String CommandResult)
    (u : String) (h1 : r1.exit_code = 0) (h2 : r2.exit_code = 0) (h3 : r3.exit_code ≠ 0) :
    deployPipeline ⟨.ok r1, .ok r2, .ok r3, s, p⟩ u =
      ("❌ Build failed: " ++ r3.stderr,
       [(Step.clone, .ok r1), (Step.install, .ok r2), (Step.build, .ok r3)]) := by
  simp only [deployPipeline]
  rw [if_neg (not_not_intro h1), if_neg (not_not_intro h2), if_pos h3]

theorem dp_serve_raise (r1 r2 r3 : CommandResult) (e : String) (p : Except String CommandResult)
    (u : String) (h1 : r1.exit_code = 0) (h2 : r2.exit_code = 0) (h3 : r3.exit_code = 0) :
    deployPipeline ⟨.ok r1, .ok r2, .ok r3, .error e, p⟩ u =
      ("❌ Deployment failed: " ++ e,
       [(Step.clone, .ok r1), (Step.install, .ok r2), (Step.build, .ok r3),
        (Step.serve, .error e)]) := by
  simp only [deployPipeline]
  rw [if_neg (not_not_intro h1), if_neg (not_not_intro h2), if_neg (not_not_intro h3)]

theorem dp_probe_raise (r1 r2 r3 r4 : CommandResult) (e : String)
    (u : String) (h1 : r1.exit_code = 0) (h2 : r2.exit_code = 0) (h3 : r3.exit_code = 0) :
    deployPipeline ⟨.ok r1, .ok r2, .ok r3, .ok r4, .error e⟩ u =
      ("❌ Deployment failed: " ++ e,
       [(Step.clone, .ok r1), (Step.install, .ok r2), (Step.build, .ok r3),
        (Step.serve, .ok r4), (Step.probe, .error e)]) := by
  simp only [deployPipeline]
  rw [if_neg (not_not_intro h1), if_neg (not_not_intro h2), if_neg (not_not_intro h3)]

theorem dp_probe_fail (r1 r2 r3 r4 r5 : CommandResult)
    (u : String) (h1 : r1.exit_code = 0) (h2 : r2.exit_code = 0) (h3 : r3.exit_code = 0)
    (h5 : r5.exit_code ≠ 0) :
    deployPipeline ⟨.ok r1, .ok r2, .ok r3, .ok r4, .ok r5⟩ u =
      ("❌ Server failed to start",
       [(Step.clone, .ok r1), (Step.install, .ok r2), (Step.build, .ok r3),
        (Step.serve, .ok r4), (Step.probe, .ok r5)]) := by
  simp only [deployPipeline]
  rw [if_neg (not_not_intro h1), if_neg (not_not_intro h2), if_neg (not_not_intro h3), if_pos h5]

theorem dp_success (r1 r2 r3 r4 r5 : CommandResult)
    (u : String) (h1 : r1.exit_code = 0) (h2 : r2.exit_code = 0) (h3 : r3.exit_code = 0)
    (h5 : r5.exit_code = 0) :
    deployPipeline ⟨.ok r1, .ok r2, .ok r3, .ok r4, .ok r5⟩ u =
      (deploySuccessMsg u,
       [(Step.clone, .ok r1), (Step.install, .ok r2), (Step.build, .ok r3),
        (Step.serve, .ok r4), (Step.probe, .ok r5)]) := by
  simp only [deployPipeline]
  rw [if_neg (not_not_intro h1), if_neg (not_not_intro h2), if_neg (not_not_intro h3),
    if_neg (not_not_intro h5)]
  rfl

/-- Failure messages of the pipeline start with the cross-mark character,
while the success message starts with the party-popper character; hence a
failure output never coincides with the success message, whatever the
variable parts of the two strings are. -/
theorem fail_ne_success (pre x u : String) (hpre : pre.data ≠ [])
    (hc : firstChar pre ≠ firstChar "🎉 **Deployment Complete!**\n\n✅ Cloned\n✅ Installed\n✅ Built\n✅ Server running\n\n🔗 **Live URL:** ") :
    pre ++ x ≠ deploySuccessMsg u := by
  unfold deploySuccessMsg
  exact append_ne_append_head _ _ _ _ hpre (by decide) hc

theorem lit_ne_success (a u : String)
    (hc : firstChar a ≠ firstChar "🎉 **Deployment Complete!**\n\n✅ Cloned\n✅ Installed\n✅ Built\n✅ Server running\n\n🔗 **Live URL:** ") :
    a ≠ deploySuccessMsg u := by
  unfold deploySuccessMsg
  exact lit_ne_append_head _ _ _ (by decide) hc

theorem deployPipeline_success_iff (env : DeployEnv) (u : String) :
    ((deployPipeline env u).1 = deploySuccessMsg u ↔
      ((∃ r, (Step.clone, Except.ok r) ∈ (deployPipeline env u).2 ∧ r.exit_code = 0) ∧
       (∃ r, (Step.install, Except.ok r) ∈ (deployPipeline env u).2 ∧ r.exit_code = 0) ∧
       (∃ r, (Step.build, Except.ok r) ∈ (deployPipeline env u).2 ∧ r.exit_code = 0) ∧
       (∃ r, (Step.probe, Except.ok r) ∈ (deployPipeline env u).2 ∧ r.exit_code = 0))) := by
  obtain ⟨c, i, b, s, p⟩ := env
  rcases c with e | r1
  · rw [dp_clone_raise]
    constructor
    · intro h
      exact absurd h (fail_ne_success _ _ _ (by decide) (by decide))
    · rintro ⟨⟨r, hr, -⟩, -, -, -⟩
      simp at hr
  · by_cases h1 : r1.exit_code = 0
    case neg =>
      rw [dp_clone_fail r1 i b s p u h1]
      constructor
      · intro h
        exact absurd h (fail_ne_success _ _ _ (by decide) (by decide))
      · rintro ⟨⟨r, hr, hr0⟩, -, -, -⟩
        simp at hr
        subst hr
        exact absurd hr0 h1
    case pos =>
      rcases i with e | r2
      · rw [dp_install_raise r1 e b s p u h1]
        constructor
        · intro h
          exact absurd h (fail_ne_success _ _ _ (by decide) (by decide))
        · rintro ⟨-, ⟨r, hr, -⟩, -, -⟩
          simp at hr
      · by_cases h2 : r2.exit_code = 0
        case neg =>
          rw [dp_install_fail r1 r2 b s p u h1 h2]
          constructor
          · intro h
            exact absurd h (fail_ne_success _ _ _ (by decide) (by decide))
          · rintro ⟨-, ⟨r, hr, hr0⟩, -, -⟩
            simp at hr
            subst hr
            exact absurd hr0 h2
        case pos =>
          rcases b with e | r3
          · rw [dp_build_raise r1 r2 e s p u h1 h2]
            constructor
            · intro h
              exact absurd h (fail_ne_success _ _ _ (by decide) (by decide))
            · rintro ⟨-, -, ⟨r, hr, -⟩, -⟩
              simp at hr
          · by_cases h3 : r3.exit_code = 0
            case neg =>
              rw [dp_build_fail r1 r2 r3 s p u h1 h2 h3]
              constructor
              · intro h
                exact absurd h (fail_ne_success _ _ _ (by decide) (by decide))
              · rintro ⟨-, -, ⟨r, hr, hr0⟩, -⟩
                simp at hr
                subst hr
                exact absurd hr0 h3
            case pos =>
              rcases s with e | r4
              · rw [dp_serve_raise r1 r2 r3 e p u h1 h2 h3]
                constructor
                · intro h
                  exact absurd h (fail_ne_success _ _ _ (by decide) (by decide))
                · rintro ⟨-, -, -, ⟨r, hr, -⟩⟩
                  simp at hr
              · rcases p with e | r5
                · rw [dp_probe_raise r1 r2 r3 r4 e u h1 h2 h3]
                  constructor
                  · intro h
                    exact absurd h (fail_ne_success _ _ _ (by decide) (by decide))
                  · rintro ⟨-, -, -, ⟨r, hr, -⟩⟩
                    simp at hr
                · by_cases h5 : r5.exit_code = 0
                  case neg =>
                    rw [dp_probe_fail r1 r2 r3 r4 r5 u h1 h2 h3 h5]
                    constructor
                    · intro h
                      exact absurd h (lit_ne_success "❌ Server failed to start" u (by decide))
                    · rintro ⟨-, -, -, ⟨r, hr, hr0⟩⟩
                      simp at hr
                      subst hr
                      exact absurd hr0 h5
                  case pos =>
                    rw [dp_success r1 r2 r3 r4 r5 u h1 h2 h3 h5]
                    constructor
                    · intro _
                      exact ⟨⟨r1, by simp, h1⟩, ⟨r2, by simp, h2⟩, ⟨r3, by simp, h3⟩,
                        ⟨r5, by simp, h5⟩⟩
                    · intro _
                      rfl

theorem deployPipeline_serve_ignored (c i b p : Except String CommandResult)
    (r r4 : CommandResult) (u : String) :
    (deployPipeline ⟨c, i, b, .ok r, p⟩ u).1 = (deployPipeline ⟨c, i, b, .ok r4, p⟩ u).1 := by
  rcases c with e | r1
  · rw [dp_clone_raise, dp_clone_raise]
  · by_cases h1 : r1.exit_code = 0
    case neg =>
      rw [dp_clone_fail r1 i b _ p u h1, dp_clone_fail r1 i b _ p u h1]
    case pos =>
      rcases i with e | r2
      · rw [dp_install_raise r1 e b _ p u h1, dp_install_raise r1 e b _ p u h1]
      · by_cases h2 : r2.exit_code = 0
        case neg =>
          rw [dp_install_fail r1 r2 b _ p u h1 h2, dp_install_fail r1 r2 b _ p u h1 h2]
        case pos =>
          rcases b with e | r3
          · rw [dp_build_raise r1 r2 e _ p u h1 h2, dp_build_raise r1 r2 e _ p u h1 h2]
          · by_cases h3 : r3.exit_code = 0
            case neg =>
              rw [dp_build_fail r1 r2 r3 _ p u h1 h2 h3, dp_build_fail r1 r2 r3 _ p u h1 h2 h3]
            case pos =>
              rcases p with e | r5
              · rw [dp_probe_raise r1 r2 r3 r e u h1 h2 h3,
                  dp_probe_raise r1 r2 r3 r4 e u h1 h2 h3]
              · by_cases h5 : r5.exit_code = 0
                case neg =>
                  rw [dp_probe_fail r1 r2 r3 r r5 u h1 h2 h3 h5,
                    dp_probe_fail r1 r2 r3 r4 r5 u h1 h2 h3 h5]
                case pos =>
                  rw [dp_success r1 r2 r3 r r5 u h1 h2 h3 h5,
                    dp_success r1 r2 r3 r4 r5 u h1 h2 h3 h5]

/-! Claim theorems. -/

/-- Claim C1: every public operation returns a string for every oracle
behaviour, and any exception arising from an external call during the
operation is caught at the operation's boundary and converted into a
descriptive string result (exceptions are the `Except.error` outcomes of
the oracles; totality of the Lean functions mirrors that every raising
call in the source sits inside a try block whose except clause formats
the error). -/
theorem ops_catch_all_exceptions (reg : Registry) (name cmd repo url text e : String)
    (info : SandboxRecord) (k : String) (hk : k ≠ "")
    (hreg : dictGet reg name = some info) :
    (∀ t : Nat, (provision_sandbox ⟨some k, Except.error e, t⟩ name reg).1 =
      "❌ Failed to provision sandbox: " ++ e) ∧
    ((run_command (Except.error e) reg name cmd).1 = "❌ Command failed: " ++ e) ∧
    (∀ i b s p, (deploy_app ⟨Except.error e, i, b, s, p⟩ reg name repo).1 =
      "❌ Deployment failed: " ++ e) ∧
    (∀ (o1 e1 : String) (b s p),
      (deploy_app ⟨Except.ok ⟨o1, e1, 0⟩, Except.error e, b, s, p⟩ reg name repo).1 =
        "❌ Deployment failed: " ++ e) ∧
    (∀ (o1 e1 o2 e2 : String) (s p),
      (deploy_app ⟨Except.ok ⟨o1, e1, 0⟩, Except.ok ⟨o2, e2, 0⟩, Except.error e, s, p⟩ reg name repo).1 =
        "❌ Deployment failed: " ++ e) ∧
    (∀ (o1 e1 o2 e2 o3 e3 : String) (p),
      (deploy_app ⟨Except.ok ⟨o1, e1, 0⟩, Except.ok ⟨o2, e2, 0⟩, Except.ok ⟨o3, e3, 0⟩, Except.error e, p⟩ reg name repo).1 =
        "❌ Deployment failed: " ++ e) ∧
    (∀ (o1 e1 o2 e2 o3 e3 : String) (r4 : CommandResult),
      (deploy_app ⟨Except.ok ⟨o1, e1, 0⟩, Except.ok ⟨o2, e2, 0⟩, Except.ok ⟨o3, e3, 0⟩, Except.ok r4, Except.error e⟩ reg name repo).1 =
        "❌ Deployment failed: " ++ e) ∧
    (∀ ms : Nat, (verify_url ⟨Except.error e, ms⟩ reg url).1 = "❌ Failed: " ++ e) ∧
    (∀ n : Nat, (check_latency ⟨fun _ => Except.error e⟩ reg url ((n : Int) + 1)).1 =
      "❌ Failed: " ++ e) ∧
    ((send_message reg text).1 = "Message sent: " ++ text) ∧
    ((list_sandboxes reg).1 = if reg.isEmpty then
        "📭 No active sandboxes. Use provision_sandbox() to create one."
      else "📦 **Active Sandboxes:**\n\n" ++ renderEntries reg) := by
  have hred : ∀ env : DeployEnv, deploy_app env reg name repo =
      ((deployPipeline env info.base_url).1, reg, (deployPipeline env info.base_url).2) := by
    intro env
    unfold deploy_app
    rw [hreg]
  refine ⟨?_, ?_, ?_, ?_, ?_, ?_, ?_, ?_, ?_, rfl, ?_⟩
  · intro t
    simp [provision_sandbox, keyMissing, hk]
  · unfold run_command
    rw [hreg]
  · intro i b s p
    rw [hred _, dp_clone_raise]
  · intro o1 e1 b s p
    rw [hred _, dp_install_raise ⟨o1, e1, 0⟩ e b s p info.base_url rfl]
  · intro o1 e1 o2 e2 s p
    rw [hred _, dp_build_raise ⟨o1, e1, 0⟩ ⟨o2, e2, 0⟩ e s p info.base_url rfl rfl]
  · intro o1 e1 o2 e2 o3 e3 p
    rw [hred _, dp_serve_raise ⟨o1, e1, 0⟩ ⟨o2, e2, 0⟩ ⟨o3, e3, 0⟩ e p info.base_url rfl rfl rfl]
  · intro o1 e1 o2 e2 o3 e3 r4
    rw [hred _, dp_probe_raise ⟨o1, e1, 0⟩ ⟨o2, e2, 0⟩ ⟨o3, e3, 0⟩ r4 e info.base_url rfl rfl rfl]
  · intro ms
    rfl
  · intro n
    rfl
  · cases reg with
    | nil => rfl
    | cons p ps => simp [list_sandboxes, foldl_entry, renderEntries, String.append_assoc]

/-- Witness for C1 at a concrete input. -/
theorem ops_catch_all_exceptions_witness :
    (provision_sandbox ⟨some "k", Except.error "boom", 0⟩ "a" [("a", ⟨0, "i", "u", 0⟩)]).1 =
      "❌ Failed to provision sandbox: " ++ "boom" :=
  (ops_catch_all_exceptions [("a", ⟨0, "i", "u", 0⟩)] "a" "ls" "r" "http://x" "hi" "boom"
    ⟨0, "i", "u", 0⟩ "k" (by decide) (by decide)).1 0

/-- Claim C2: with the API key unset, provisioning fails fast with the
credential-missing message, issues no remote call and leaves the registry
unchanged; with the key set and the remote creation call raising, it
returns the failure message carrying the error text and leaves the
registry unchanged. -/
theorem provision_failure_paths (reg : Registry) (name : String) :
    (∀ (cr : Except String E2BSandbox) (t : Nat),
      provision_sandbox ⟨none, cr, t⟩ name reg =
        ("❌ E2B_API_KEY not set. Please configure your API key.", reg, [])) ∧
    (∀ (k e : String) (t : Nat), k ≠ "" →
      provision_sandbox ⟨some k, Except.error e, t⟩ name reg =
        ("❌ Failed to provision sandbox: " ++ e, reg, ["Sandbox.create"])) := by
  constructor
  · intro cr t
    rfl
  · intro k e t hk
    simp [provision_sandbox, keyMissing, hk]

/-- Witness for C2 at a concrete input. -/
theorem provision_failure_paths_witness :
    provision_sandbox ⟨none, Except.error "boom", 0⟩ "s1" [] =
      ("❌ E2B_API_KEY not set. Please configure your API key.", [], []) ∧
    provision_sandbox ⟨some "k", Except.error "boom", 0⟩ "s1" [] =
      ("❌ Failed to provision sandbox: " ++ "boom", [], ["Sandbox.create"]) :=
  ⟨(provision_failure_paths [] "s1").1 (Except.error "boom") 0,
   (provision_failure_paths [] "s1").2 "k" "boom" 0 (by decide)⟩

/-- Claim C3: for a sandbox present in the registry, the deployment
pipeline short-circuits: a non-zero exit code at the clone, install or
build step immediately yields that step's failure message carrying its
standard error, and no later command is issued (the returned trace is
exactly the prefix of executed call sites). -/
theorem deploy_short_circuit (reg : Registry) (name repo : String) (info : SandboxRecord)
    (hreg : dictGet reg name = some info) :
    (∀ (r1 : CommandResult) (i b s p : Except String CommandResult), r1.exit_code ≠ 0 →
      deploy_app ⟨Except.ok r1, i, b, s, p⟩ reg name repo =
        ("❌ Clone failed: " ++ r1.stderr, reg, [(Step.clone, Except.ok r1)])) ∧
    (∀ (r1 r2 : CommandResult) (b s p : Except String CommandResult),
      r1.exit_code = 0 → r2.exit_code ≠ 0 →
      deploy_app ⟨Except.ok r1, Except.ok r2, b, s, p⟩ reg name repo =
        ("❌ Install failed: " ++ r2.stderr, reg,
         [(Step.clone, Except.ok r1), (Step.install, Except.ok r2)])) ∧
    (∀ (r1 r2 r3 : CommandResult) (s p : Except String CommandResult),
      r1.exit_code = 0 → r2.exit_code = 0 → r3.exit_code ≠ 0 →
      deploy_app ⟨Except.ok r1, Except.ok r2, Except.ok r3, s, p⟩ reg name repo =
        ("❌ Build failed: " ++ r3.stderr, reg,
         [(Step.clone, Except.ok r1), (Step.install, Except.ok r2), (Step.build, Except.ok r3)])) := by
  have hred : ∀ env : DeployEnv, deploy_app env reg name repo =
      ((deployPipeline env info.base_url).1, reg, (deployPipeline env info.base_url).2) := by
    intro env
    unfold deploy_app
    rw [hreg]
  refine ⟨?_, ?_, ?_⟩
  · intro r1 i b s p h
    rw [hred _, dp_clone_fail r1 i b s p info.base_url h]
  · intro r1 r2 b s p h1 h2
    rw [hred _, dp_install_fail r1 r2 b s p info.base_url h1 h2]
  · intro r1 r2 r3 s p h1 h2 h3
    rw [hred _, dp_build_fail r1 r2 r3 s p info.base_url h1 h2 h3]

/-- Witness for C3 at a concrete input. -/
theorem deploy_short_circuit_witness :
    deploy_app ⟨Except.ok ⟨"", "fatal", 1⟩, Except.error "x", Except.error "x",
        Except.error "x", Except.error "x"⟩ [("a", ⟨0, "i", "u", 0⟩)] "a" "r" =
      ("❌ Clone failed: " ++ "fatal", [("a", ⟨0, "i", "u", 0⟩)],
       [(Step.clone, Except.ok ⟨"", "fatal", 1⟩)]) :=
  (deploy_short_circuit [("a", ⟨0, "i", "u", 0⟩)] "a" "r" ⟨0, "i", "u", 0⟩ (by decide)).1
    ⟨"", "fatal", 1⟩ (Except.error "x") (Except.error "x") (Except.error "x")
    (Except.error "x") (by decide)

/-- Claim C4: for a sandbox present in the registry, deploy_app returns
the overall success message with the sandbox's base URL exactly when the
executed clone, install and build calls returned exit code 0 and the
executed process-table probe returned exit code 0; the serve launch's
result value is never inspected for the output; and a probe with
non-zero exit code yields the generic server-failed message with no
step-specific error text. -/
theorem deploy_success_characterisation (reg : Registry) (name repo : String)
    (info : SandboxRecord) (hreg : dictGet reg name = some info) :
    (∀ env : DeployEnv,
      ((deploy_app env reg name repo).1 = deploySuccessMsg info.base_url ↔
        ((∃ r, (Step.clone, Except.ok r) ∈ (deploy_app env reg name repo).2.2 ∧ r.exit_code = 0) ∧
         (∃ r, (Step.install, Except.ok r) ∈ (deploy_app env reg name repo).2.2 ∧ r.exit_code = 0) ∧
         (∃ r, (Step.build, Except.ok r) ∈ (deploy_app env reg name repo).2.2 ∧ r.exit_code = 0) ∧
         (∃ r, (Step.probe, Except.ok r) ∈ (deploy_app env reg name repo).2.2 ∧ r.exit_code = 0)))) ∧
    (∀ (c i b p : Except String CommandResult) (r r4 : CommandResult),
      (deploy_app ⟨c, i, b, Except.ok r, p⟩ reg name repo).1 =
        (deploy_app ⟨c, i, b, Except.ok r4, p⟩ reg name repo).1) ∧
    (∀ r1 r2 r3 r4 r5 : CommandResult, r1.exit_code = 0 → r2.exit_code = 0 →
      r3.exit_code = 0 → r5.exit_code ≠ 0 →
      (deploy_app ⟨Except.ok r1, Except.ok r2, Except.ok r3, Except.ok r4, Except.ok r5⟩ reg name repo).1 =
        "❌ Server failed to start") := by
  have hred : ∀ env : DeployEnv, deploy_app env reg name repo =
      ((deployPipeline env info.base_url).1, reg, (deployPipeline env info.base_url).2) := by
    intro env
    unfold deploy_app
    rw [hreg]
  refine ⟨?_, ?_, ?_⟩
  · intro env
    rw [hred env]
    exact deployPipeline_success_iff env info.base_url
  · intro c i b p r r4
    rw [hred _, hred _]
    exact deployPipeline_serve_ignored c i b p r r4 info.base_url
  · intro r1 r2 r3 r4 r5 h1 h2 h3 h5
    rw [hred _, dp_probe_fail r1 r2 r3 r4 r5 info.base_url h1 h2 h3 h5]

/-- Witness for C4 at a concrete input. -/
theorem deploy_success_characterisation_witness :
    (deploy_app ⟨Except.ok ⟨"", "", 0⟩, Except.ok ⟨"", "", 0⟩, Except.ok ⟨"", "", 0⟩,
        Except.ok ⟨"", "", 0⟩, Except.ok ⟨"", "", 1⟩⟩ [("a", ⟨0, "i", "u", 0⟩)] "a" "r").1 =
      "❌ Server failed to start" :=
  (deploy_success_characterisation [("a", ⟨0, "i", "u", 0⟩)] "a" "r" ⟨0, "i", "u", 0⟩
    (by decide)).2.2 ⟨"", "", 0⟩ ⟨"", "", 0⟩ ⟨"", "", 0⟩ ⟨"", "", 0⟩ ⟨"", "", 1⟩
    (by decide) (by decide) (by decide) (by decide)

/-- Claim C5 (recording the actual behaviour of the source at the
failing input): for any non-positive sample count the loop body never
runs, the evaluation of sum(times) divided by len(times) performs a
division by zero whose ZeroDivisionError is caught by the blanket except
clause, and the operation returns the generic failure message rather
than an input-validation message. -/
theorem check_latency_nonpositive_division_by_zero (env : LatencyEnv) (reg : Registry)
    (url : String) (samples : Int) (h : samples ≤ 0) :
    check_latency env reg url samples = ("❌ Failed: division by zero", reg) := by
  unfold check_latency latencyBody
  rw [Int.toNat_of_nonpos h]
  rfl

/-- Witness for C5 at the failing input samples = 0. -/
theorem check_latency_division_by_zero_witness :
    check_latency ⟨fun _ => Except.error "x"⟩ [] "http://x" 0 =
      ("❌ Failed: division by zero", []) :=
  check_latency_nonpositive_division_by_zero ⟨fun _ => Except.error "x"⟩ [] "http://x" 0
    (by decide)

/-- Claim C6: provisioning the same name twice with both remote
creations succeeding leaves exactly one registry entry under that name,
holding the second call's handle, identifier, base URL and creation time
(last write wins); and every provisioning call preserves uniqueness of
the registry keys. -/
theorem provision_last_write_wins (reg : Registry) (name k1 k2 : String)
    (sb1 sb2 : E2BSandbox) (t1 t2 : Nat)
    (hnd : (registryKeys reg).Nodup) (h1 : k1 ≠ "") (h2 : k2 ≠ "") :
    ((((provision_sandbox ⟨some k2, Except.ok sb2, t2⟩ name
        ((provision_sandbox ⟨some k1, Except.ok sb1, t1⟩ name reg).2.1)).2.1).filter
        (fun p => decide (p.1 = name))).length = 1) ∧
    dictGet ((provision_sandbox ⟨some k2, Except.ok sb2, t2⟩ name
        ((provision_sandbox ⟨some k1, Except.ok sb1, t1⟩ name reg).2.1)).2.1) name =
      some { sandbox := sb2.token, sandbox_id := sb2.sandbox_id,
             base_url := "https://8000-" ++ sb2.sandbox_id ++ ".e2b.app", created_at := t2 } ∧
    ((registryKeys ((provision_sandbox ⟨some k2, Except.ok sb2, t2⟩ name
        ((provision_sandbox ⟨some k1, Except.ok sb1, t1⟩ name reg).2.1)).2.1)).Nodup) ∧
    (∀ (env : ProvisionEnv) (nm : String) (r : Registry), (registryKeys r).Nodup →
      (registryKeys ((provision_sandbox env nm r).2.1)).Nodup) := by
  have e1 : (provision_sandbox ⟨some k1, Except.ok sb1, t1⟩ name reg).2.1 =
      dictSet reg name
        { sandbox := sb1.token, sandbox_id := sb1.sandbox_id,
          base_url := "https://8000-" ++ sb1.sandbox_id ++ ".e2b.app", created_at := t1 } := by
    rw [provision_ok ⟨some k1, Except.ok sb1, t1⟩ name reg k1 sb1 rfl h1 rfl]
  have hnd1 : (registryKeys ((provision_sandbox ⟨some k1, Except.ok sb1, t1⟩ name reg).2.1)).Nodup := by
    rw [e1]
    exact nodup_keys_dictSet _ _ _ hnd
  have e2 : (provision_sandbox ⟨some k2, Except.ok sb2, t2⟩ name
      ((provision_sandbox ⟨some k1, Except.ok sb1, t1⟩ name reg).2.1)).2.1 =
      dictSet ((provision_sandbox ⟨some k1, Except.ok sb1, t1⟩ name reg).2.1) name
        { sandbox := sb2.token, sandbox_id := sb2.sandbox_id,
          base_url := "https://8000-" ++ sb2.sandbox_id ++ ".e2b.app", created_at := t2 } := by
    rw [provision_ok ⟨some k2, Except.ok sb2, t2⟩ name _ k2 sb2 rfl h2 rfl]
  refine ⟨?_, ?_, ?_, ?_⟩
  · rw [e2, filter_dictSet_self _ _ _ hnd1]
    rfl
  · rw [e2]
    exact dictGet_dictSet _ _ _
  · rw [e2]
    exact nodup_keys_dictSet _ _ _ hnd1
  · intro env nm r hr
    unfold provision_sandbox
    split
    · exact hr
    · split
      · exact hr
      · exact nodup_keys_dictSet _ _ _ hr

/-- Witness for C6 at a concrete input. -/
theorem provision_last_write_wins_witness :
    dictGet ((provision_sandbox ⟨some "k", Except.ok ⟨1, "i2"⟩, 1⟩ "a"
        ((provision_sandbox ⟨some "k", Except.ok ⟨0, "i1"⟩, 0⟩ "a" []).2.1)).2.1) "a" =
      some { sandbox := 1, sandbox_id := "i2",
             base_url := "https://8000-" ++ "i2" ++ ".e2b.app", created_at := 1 } :=
  (provision_last_write_wins [] "a" "k" "k" ⟨0, "i1"⟩ ⟨1, "i2"⟩ 0 1
    (by simp [registryKeys]) (by decide) (by decide)).2.1

/-- Claim C7: run_command on a name absent from the registry returns the
not-found message and issues no remote call (empty trace); on a present
name with a completed remote command it returns the report containing
the stdout block exactly when stdout is non-empty, the stderr block
exactly when stderr is non-empty, always the numeric exit code, and the
success or warning marker keyed on exit-code-equals-zero (the shape
captured by reportSpec). -/
theorem run_command_spec (reg : Registry) (name cmd : String) :
    (∀ env : Except String CommandResult, dictGet reg name = none →
      run_command env reg name cmd =
        ("❌ Sandbox \x27" ++ name ++ "\x27 not found.", reg, [])) ∧
    (∀ (info : SandboxRecord) (r : CommandResult), dictGet reg name = some info →
      run_command (Except.ok r) reg name cmd = (reportSpec r, reg, [cmd])) := by
  constructor
  · intro env h
    unfold run_command
    rw [h]
  · intro info r h
    unfold run_command
    rw [h]
    unfold reportSpec
    by_cases h1 : r.stdout = "" <;> by_cases h2 : r.stderr = "" <;>
      simp [h1, h2, String.append_assoc]

/-- Witness for C7 at a concrete input. -/
theorem run_command_spec_witness :
    run_command (Except.error "x") [] "a" "ls" =
      ("❌ Sandbox \x27" ++ "a" ++ "\x27 not found.", [], []) ∧
    run_command (Except.ok ⟨"out", "", 0⟩) [("a", ⟨0, "i", "u", 0⟩)] "a" "ls" =
      (reportSpec ⟨"out", "", 0⟩, [("a", ⟨0, "i", "u", 0⟩)], ["ls"]) :=
  ⟨(run_command_spec [] "a" "ls").1 (Except.error "x") (by decide),
   (run_command_spec [("a", ⟨0, "i", "u", 0⟩)] "a" "ls").2 ⟨0, "i", "u", 0⟩ ⟨"out", "", 0⟩
     (by decide)⟩

/-- Claim C8: verify_url returns the live message exactly when the GET
completed with status 200; any other status yields the warning message
carrying the actual status code and the measured latency; and an
exception raised by the GET is caught and reported as the failure
message carrying the error text, so this branch never raises. -/
theorem verify_url_spec (reg : Registry) (url : String) :
    (∀ env : VerifyEnv,
      ((verify_url env reg url).1 = liveMsg url env.elapsed_ms ↔
        ∃ resp, env.get_result = Except.ok resp ∧ resp.status_code = 200)) ∧
    (∀ (code : Int) (ms : Nat), code ≠ 200 →
      verify_url ⟨Except.ok ⟨code⟩, ms⟩ reg url =
        ("⚠️ HTTP " ++ (toString code ++ ("\n🔗 " ++ (url ++ ("\n⏱️ " ++ (toString ms ++ "ms"))))), reg)) ∧
    (∀ (e : String) (ms : Nat),
      verify_url ⟨Except.error e, ms⟩ reg url = ("❌ Failed: " ++ e, reg)) := by
  refine ⟨?_, ?_, ?_⟩
  · intro env
    obtain ⟨gr, ms⟩ := env
    rcases gr with e | resp
    · constructor
      · intro h
        refine absurd h ?_
        show "❌ Failed: " ++ e ≠ liveMsg url ms
        unfold liveMsg
        exact append_ne_append_head _ _ _ _ (by decide) (by decide) (by decide)
      · rintro ⟨resp, hr, -⟩
        simp at hr
    · obtain ⟨code⟩ := resp
      by_cases hc : code = 200
      · subst hc
        constructor
        · intro _
          exact ⟨⟨200⟩, rfl, rfl⟩
        · intro _
          rfl
      · constructor
        · intro h
          have hval : (verify_url ⟨Except.ok ⟨code⟩, ms⟩ reg url).1 =
              "⚠️ HTTP " ++ (toString code ++ ("\n🔗 " ++ (url ++ ("\n⏱️ " ++ (toString ms ++ "ms"))))) := by
            simp [verify_url, hc]
          rw [hval] at h
          refine absurd h ?_
          unfold liveMsg
          exact append_ne_append_head _ _ _ _ (by decide) (by decide) (by decide)
        · rintro ⟨resp2, hr, h200⟩
          have hr2 : resp2 = ⟨code⟩ := by
            injection hr with h3
            exact h3.symm
          rw [hr2] at h200
          exact absurd h200 hc
  · intro code ms hc
    simp [verify_url, hc]
  · intro e ms
    rfl

/-- Witness for C8 at concrete inputs. -/
theorem verify_url_spec_witness :
    ((verify_url ⟨Except.ok ⟨200⟩, 7⟩ [] "http://x").1 = liveMsg "http://x" 7 ↔
      ∃ resp, (⟨Except.ok ⟨200⟩, 7⟩ : VerifyEnv).get_result = Except.ok resp ∧
        resp.status_code = 200) ∧
    verify_url ⟨Except.ok ⟨404⟩, 5⟩ [] "http://x" =
      ("⚠️ HTTP " ++ (toString (404 : Int) ++ ("\n🔗 " ++ ("http://x" ++ ("\n⏱️ " ++ (toString (5 : Nat) ++ "ms"))))), []) ∧
    verify_url ⟨Except.error "boom", 3⟩ [] "http://x" = ("❌ Failed: " ++ "boom", []) :=
  ⟨(verify_url_spec [] "http://x").1 ⟨Except.ok ⟨200⟩, 7⟩,
   (verify_url_spec [] "http://x").2.1 404 5 (by decide),
   (verify_url_spec [] "http://x").2.2 "boom" 3⟩

/-- Claim C9: list_sandboxes on the empty registry returns the fixed
no-sandboxes message; on a non-empty registry it returns the header
followed by the rendering of every record (name, identifier, URL) in
insertion order; both cases leave the registry unchanged; and N
successful provisions with distinct names starting from the empty
registry leave exactly those N names as keys, in provisioning order. -/
theorem list_sandboxes_spec :
    (list_sandboxes [] =
      ("📭 No active sandboxes. Use provision_sandbox() to create one.", [])) ∧
    (∀ reg : Registry, reg ≠ [] →
      list_sandboxes reg = ("📦 **Active Sandboxes:**\n\n" ++ renderEntries reg, reg)) ∧
    (∀ jobs : List (String × ProvisionEnv),
      (∀ j ∈ jobs, envOk j.2) → (jobs.map Prod.fst).Nodup →
      registryKeys (provisionAll [] jobs) = jobs.map Prod.fst) := by
  refine ⟨rfl, ?_, ?_⟩
  · intro reg h
    cases reg with
    | nil => exact absurd rfl h
    | cons p ps => simp [list_sandboxes, foldl_entry, renderEntries, String.append_assoc]
  · intro jobs hok hnd
    simpa using provisionAll_keys jobs [] hok hnd (by simp [registryKeys])

/-- Witness for C9 at concrete inputs. -/
theorem list_sandboxes_spec_witness :
    list_sandboxes [("a", ⟨0, "i", "u", 0⟩)] =
      ("📦 **Active Sandboxes:**\n\n" ++ renderEntries [("a", ⟨0, "i", "u", 0⟩)],
       [("a", ⟨0, "i", "u", 0⟩)]) ∧
    registryKeys (provisionAll []
      [("a", ⟨some "k", Except.ok ⟨0, "i0"⟩, 0⟩), ("b", ⟨some "k", Except.ok ⟨1, "i1"⟩, 1⟩)]) =
      ["a", "b"] :=
  ⟨list_sandboxes_spec.2.1 [("a", ⟨0, "i", "u", 0⟩)] (by simp),
   list_sandboxes_spec.2.2
     [("a", ⟨some "k", Except.ok ⟨0, "i0"⟩, 0⟩), ("b", ⟨some "k", Except.ok ⟨1, "i1"⟩, 1⟩)]
     (by
       rintro j hj
       simp only [List.mem_cons, List.not_mem_nil, or_false] at hj
       rcases hj with rfl | rfl
       · exact ⟨⟨"k", rfl, by decide⟩, ⟨0, "i0"⟩, rfl⟩
       · exact ⟨⟨"k", rfl, by decide⟩, ⟨1, "i1"⟩, rfl⟩)
     (by simp)⟩

/-- Claim C10: provision_sandbox is the only operation that writes the
registry; list_sandboxes, run_command, deploy_app, verify_url,
check_latency and send_message return the registry they received
unchanged on every input and every oracle path, success and failure
alike. -/
theorem only_provision_writes_registry (reg : Registry)
    (renv : Except String CommandResult) (denv : DeployEnv) (venv : VerifyEnv)
    (lenv : LatencyEnv) (name cmd repo url text : String) (samples : Int) :
    (list_sandboxes reg).2 = reg ∧
    (run_command renv reg name cmd).2.1 = reg ∧
    (deploy_app denv reg name repo).2.1 = reg ∧
    (verify_url venv reg url).2 = reg ∧
    (check_latency lenv reg url samples).2 = reg ∧
    (send_message reg text).2 = reg := by
  refine ⟨?_, ?_, ?_, ?_, ?_, rfl⟩
  · unfold list_sandboxes
    split <;> rfl
  · unfold run_command
    split
    · rfl
    · split <;> rfl
  · unfold deploy_app
    split <;> rfl
  · unfold verify_url
    split
    · rfl
    · split <;> rfl
  · unfold check_latency
    split <;> rfl

end InfraGenius
